import Mathlib

/-!
Verification of the server-side Secure Channel Layer
(`src/lib/server/ServerSecureChannelLayer.js`).

The JavaScript source is shallowly embedded: Node `Buffer`s become lists of
byte values (`Bytes`), nullable values become `Option`s, the mutable channel
fields touched by an operation become explicit state records, and external
collaborators (crypto provider, certificate parser, random generator) become
function parameters.  SHA-1 (used by `crypto_utils.makeSHA1Thumbprint` for
certificate thumbprints) is implemented in full so that thumbprint
comparisons can be evaluated on concrete certificates.
-/

/-- Raw byte strings (Node `Buffer`s) as lists of byte values. -/
abbrev Bytes := List Nat

/-! ## SHA-1 (FIPS 180-4), byte-level

`crypto_utils.makeSHA1Thumbprint(buffer)` is the SHA-1 digest of the buffer;
the spec glossary defines a thumbprint as the SHA-1 digest of a DER-encoded
certificate.  The implementation below is the standard algorithm: padding,
16-word big-endian block decomposition, 80-word message schedule, 80 rounds.
-/

/-- Rotate a 32-bit word left by `n` bits. -/
def rotl32 (n x : Nat) : Nat :=
  ((x <<< n) ||| (x >>> (32 - n))) % 2 ^ 32

/-- The SHA-1 round constant for round `t`. -/
def sha1K (t : Nat) : Nat :=
  if t < 20 then 0x5A827999
  else if t < 40 then 0x6ED9EBA1
  else if t < 60 then 0x8F1BBCDC
  else 0xCA62C1D6

/-- The SHA-1 round function for round `t`. -/
def sha1F (t b c d : Nat) : Nat :=
  if t < 20 then (b &&& c) ||| ((b ^^^ 0xFFFFFFFF) &&& d)
  else if t < 40 then b ^^^ c ^^^ d
  else if t < 60 then (b &&& c) ||| (b &&& d) ||| (c &&& d)
  else b ^^^ c ^^^ d

/-- Big-endian 32-bit word number `i` of a 64-byte block. -/
def word32At (block : List Nat) (i : Nat) : Nat :=
  (block.getD (4 * i) 0) <<< 24 ||| (block.getD (4 * i + 1) 0) <<< 16 |||
    (block.getD (4 * i + 2) 0) <<< 8 ||| block.getD (4 * i + 3) 0

/-- Extend a message schedule by `n` further words
(`w[t] = rotl1 (w[t-3] xor w[t-8] xor w[t-14] xor w[t-16])`). -/
def sha1ExtendAux : Nat → List Nat → List Nat
  | 0, w => w
  | n + 1, w =>
      let L := w.length
      let next := rotl32 1
        ((w.getD (L - 3) 0) ^^^ (w.getD (L - 8) 0) ^^^ (w.getD (L - 14) 0) ^^^ (w.getD (L - 16) 0))
      sha1ExtendAux n (w ++ [next])

/-- The 80-word message schedule of one 64-byte block. -/
def sha1Schedule (block : List Nat) : List Nat :=
  sha1ExtendAux 64 ((List.range 16).map (word32At block))

/-- The five 32-bit working variables of SHA-1. -/
structure Sha1State where
  a : Nat
  b : Nat
  c : Nat
  d : Nat
  e : Nat
  deriving DecidableEq

/-- The SHA-1 initial hash value. -/
def sha1IV : Sha1State :=
  { a := 0x67452301, b := 0xEFCDAB89, c := 0x98BADCFE, d := 0x10325476, e := 0xC3D2E1F0 }

/-- One SHA-1 round. -/
def sha1Round (w : List Nat) (s : Sha1State) (t : Nat) : Sha1State :=
  let temp := (rotl32 5 s.a + sha1F t s.b s.c s.d + s.e + w.getD t 0 + sha1K t) % 2 ^ 32
  { a := temp, b := s.a, c := rotl32 30 s.b, d := s.c, e := s.d }

/-- Compress one 64-byte block into the running hash state. -/
def sha1Compress (h : Sha1State) (block : List Nat) : Sha1State :=
  let w := sha1Schedule block
  let s := (List.range 80).foldl (sha1Round w) h
  { a := (h.a + s.a) % 2 ^ 32, b := (h.b + s.b) % 2 ^ 32, c := (h.c + s.c) % 2 ^ 32,
    d := (h.d + s.d) % 2 ^ 32, e := (h.e + s.e) % 2 ^ 32 }

/-- The 8-byte big-endian encoding of `n`. -/
def be64 (n : Nat) : List Nat :=
  [(n >>> 56) % 256, (n >>> 48) % 256, (n >>> 40) % 256, (n >>> 32) % 256,
   (n >>> 24) % 256, (n >>> 16) % 256, (n >>> 8) % 256, n % 256]

/-- The 4-byte big-endian encoding of `n`. -/
def be32 (n : Nat) : List Nat :=
  [(n >>> 24) % 256, (n >>> 16) % 256, (n >>> 8) % 256, n % 256]

/-- SHA-1 padding: append `0x80`, zeros and the 64-bit big-endian bit length,
reaching a multiple of 64 bytes. -/
def sha1Pad (msg : List Nat) : List Nat :=
  let zeroCount := (119 - msg.length % 64) % 64
  msg ++ [0x80] ++ List.replicate zeroCount 0 ++ be64 (8 * msg.length)

/-- Split a padded message into 64-byte blocks (fuel-driven so the kernel can
evaluate it). -/
def chunks64Aux : Nat → List Nat → List (List Nat)
  | 0, _ => []
  | _, [] => []
  | fuel + 1, l => l.take 64 :: chunks64Aux fuel (l.drop 64)

/-- The SHA-1 digest (20 bytes) of a byte string. -/
def sha1 (msg : List Nat) : List Nat :=
  let padded := sha1Pad msg
  let h := (chunks64Aux padded.length padded).foldl sha1Compress sha1IV
  be32 h.a ++ be32 h.b ++ be32 h.c ++ be32 h.d ++ be32 h.e

/-- Lowercase hexadecimal digit for a value below 16 (Node's
`buffer.toString("hex")` emits lowercase). -/
def hexDigit (n : Nat) : Char :=
  if n < 10 then Char.ofNat (48 + n) else Char.ofNat (87 + n)

/-- Lowercase hexadecimal rendering of a byte string, as
`buffer.toString("hex")` produces. -/
def bufToHex (b : Bytes) : List Char :=
  (b.map (fun x => [hexDigit (x / 16), hexDigit (x % 16)])).flatten

set_option maxRecDepth 16384

/-! ## Data model

Status codes, security modes, headers and the security token, following
`lib/datamodel` and `lib/services` as used by `ServerSecureChannelLayer.js`.
Only the status codes this layer can produce are enumerated.
-/

/-- The OPC-UA status codes surfaced by the secure channel layer. -/
inductive StatusCode where
  | Good
  | BadSecurityModeRejected
  | BadCertificateInvalid
  | BadCertificateTimeInvalid
  | BadSecurityChecksFailed
  | BadCommunicationError
  | BadSecurityPolicyRejected
  deriving DecidableEq

/-- `MessageSecurityMode` from `lib/datamodel/structures`. -/
inductive MessageSecurityMode where
  | INVALID
  | NONE
  | SIGN
  | SIGNANDENCRYPT
  deriving DecidableEq

/-- `SecurityTokenRequestType` from `lib/services/get_endpoints_service`. -/
inductive SecurityTokenRequestType where
  | ISSUE
  | RENEW
  deriving DecidableEq

/-- The asymmetric security header of an OPN chunk.  `none` models a JS
`null` buffer; `some []` models a zero-length buffer (which is truthy in
JavaScript, unlike `null`). -/
structure AsymmetricAlgorithmSecurityHeader where
  securityPolicyUri : String
  senderCertificate : Option Bytes
  receiverCertificateThumbprint : Option Bytes
  deriving DecidableEq

/-- `ChannelSecurityToken` as built by `_add_new_security_token`
(lines 264-269).  `createdAt` is a timestamp in milliseconds.  `expired` is
the token's expired flag, asserted false right after construction
(line 271); nothing in this layer ever sets it. -/
structure ChannelSecurityToken where
  secureChannelId : Nat
  tokenId : Nat
  createdAt : Nat
  revisedLifeTime : Nat
  expired : Bool
  deriving DecidableEq

/-- The fields of `OpenSecureChannelRequest` consumed by the layer. -/
structure OpenSecureChannelRequest where
  clientNonce : Bytes
  requestedLifetime : Nat
  requestType : SecurityTokenRequestType
  requestHandle : Nat
  deriving DecidableEq

/-- The part of the message builder's crypto factory this layer reads.  The
factory is `null` exactly when the security policy is `None`; key
derivation itself is delegated to it, so a derived-key bundle is
represented by the `(serverNonce, clientNonce)` pair it was computed
from. -/
structure CryptoFactory where
  symmetricKeyLength : Nat
  deriving DecidableEq

/-! ## Token manager

State transformers for `_add_new_security_token`,
`_prepare_security_token`, and the security-token watchdog
(lines 256-279, 596-650).  The fields below are exactly the channel
fields those functions read or write; `securityTokenTimeout = true`
models a non-null timer handle. -/

/-- The channel fields owned by the token manager. -/
structure TokenState where
  lastTokenId : Nat
  securityToken : Option ChannelSecurityToken
  securityTokenTimeout : Bool
  deriving DecidableEq

/-- Token-manager state at channel construction: `lastTokenId = 0`
(line 80), a placeholder token `{ secureChannelId: 0, tokenId: 0 }`
(line 87), no watchdog armed. -/
def initialTokenState : TokenState :=
  { lastTokenId := 0,
    securityToken := some
      { secureChannelId := 0, tokenId := 0, createdAt := 0, revisedLifeTime := 0, expired := false },
    securityTokenTimeout := false }

/-- `_stop_security_token_watch_dog` (lines 596-604): clear the timer. -/
def stop_security_token_watch_dog (s : TokenState) : TokenState :=
  { s with securityTokenTimeout := false }

/-- `_start_security_token_watch_dog` (lines 606-616): arm the timer. -/
def start_security_token_watch_dog (s : TokenState) : TokenState :=
  { s with securityTokenTimeout := true }

/-- The delay, in milliseconds, after which the watchdog armed by
`_start_security_token_watch_dog` fires: `revisedLifeTime * 120 / 100`
(line 615), computed in JavaScript floating point, exact on these
magnitudes, hence modelled in `Rat`. -/
def security_token_watch_dog_delay (token : ChannelSecurityToken) : Rat :=
  (token.revisedLifeTime : Rat) * 120 / 100

/-- The body of the watchdog timer callback (lines 611-615): it logs two
console lines and clears the timer handle; nothing else on the channel is
touched. -/
def security_token_watch_dog_fire (s : TokenState) : TokenState :=
  { s with securityTokenTimeout := false }

/-- `_add_new_security_token` (lines 256-279): stop the watchdog, increment
`lastTokenId`, install a fresh token with that id, restart the watchdog. -/
def add_new_security_token (secureChannelId revisedLifeTime now : Nat)
    (s : TokenState) : TokenState :=
  let s1 := stop_security_token_watch_dog s
  let lastTokenId := s1.lastTokenId + 1
  let securityToken : ChannelSecurityToken :=
    { secureChannelId := secureChannelId, tokenId := lastTokenId, createdAt := now,
      revisedLifeTime := revisedLifeTime, expired := false }
  start_security_token_watch_dog
    { s1 with lastTokenId := lastTokenId, securityToken := some securityToken }

/-- `_prepare_security_token` (lines 618-634): delete the current
`securityToken`, stop the watchdog on a RENEW, then install a new token. -/
def prepare_security_token (requestType : SecurityTokenRequestType)
    (secureChannelId revisedLifeTime now : Nat) (s : TokenState) : TokenState :=
  let s1 : TokenState := { s with securityToken := none }
  let s2 := if requestType = SecurityTokenRequestType.RENEW
    then stop_security_token_watch_dog s1 else s1
  add_new_security_token secureChannelId revisedLifeTime now s2

/-- Whether the channel's token bookkeeping still recognises a given
`tokenId`: the channel keeps a single `securityToken` field, so exactly the
current token's id is recognised. -/
def recognizesTokenId (s : TokenState) (tid : Nat) : Bool :=
  match s.securityToken with
  | some t => t.tokenId == tid
  | none => false

/-- `_set_lifetime` (lines 636-650): a requested lifetime of 0 selects the
server default, anything else is capped by the server default. -/
def set_lifetime (defaultSecureTokenLifetime requestedLifetime : Nat) : Nat :=
  if requestedLifetime = 0 then defaultSecureTokenLifetime
  else min defaultSecureTokenLifetime requestedLifetime

/-- The constructor's defaulting of `defaultSecureTokenLifetime`
(line 84): `options.defaultSecureTokenLifetime || 600000`, where a missing
or zero option is falsy. -/
def mkDefaultSecureTokenLifetime : Option Nat → Nat
  | none => 600000
  | some 0 => 600000
  | some (n + 1) => n + 1

/-! ## Certificate checks

The server's certificate chain (`parent.getCertificateChain()`) is a single
DER blob that concatenates the certificates of the chain; the external
`split_der` splits it back into individual certificates.  The chain is
modelled as the list of its certificates, so the raw blob is its
concatenation and `split_der(chain)[0]` is its head. -/

/-- `crypto_utils.makeSHA1Thumbprint`: the SHA-1 digest of a buffer (spec
glossary: a thumbprint is the SHA-1 digest of a DER-encoded certificate). -/
def makeSHA1Thumbprint (buffer : Bytes) : Bytes := sha1 buffer

/-- `_check_receiverCertificateThumbprint` (lines 973-986): with a non-null
thumbprint, compare the SHA-1 of the full certificate-chain blob
(line 980 digests `serverCertificateChain`; the `split_der(...)[0]` local
of line 979 is computed but never used) with the client's thumbprint, both
rendered as lowercase hex; with a null thumbprint, return true. -/
def check_receiverCertificateThumbprint (serverCertificateChain : List Bytes)
    (clientSecurityHeader : AsymmetricAlgorithmSecurityHeader) : Bool :=
  match clientSecurityHeader.receiverCertificateThumbprint with
  | some thumbprint =>
      let myCertificateThumbPrint := makeSHA1Thumbprint serverCertificateChain.flatten
      bufToHex myCertificateThumbPrint = bufToHex thumbprint
  | none => true

/-- Reference form of the thumbprint verification following the spec's
words, for comparison with the source's `_check_receiverCertificateThumbprint`:
"confirm `receiverCertificateThumbprint` equals the SHA-1 digest of the
server certificate's DER form" (the server certificate being the first
certificate of the chain), and "A missing `receiverCertificateThumbprint`
when mode = None is accepted; when mode ≠ None it fails step 13". -/
def spec_check_receiverCertificateThumbprint (securityMode : MessageSecurityMode)
    (serverCertificateChain : List Bytes)
    (clientSecurityHeader : AsymmetricAlgorithmSecurityHeader) : Bool :=
  match clientSecurityHeader.receiverCertificateThumbprint with
  | some thumbprint =>
      bufToHex (makeSHA1Thumbprint (serverCertificateChain.headD [])) = bufToHex thumbprint
  | none => securityMode = MessageSecurityMode.NONE

/-- What the external `crypto_utils.exploreCertificate` exposes of a parsed
certificate: its validity window, as millisecond timestamps. -/
structure ExploredCertificate where
  notBefore : Int
  notAfter : Int
  deriving DecidableEq

/-- `_check_certificate_validity` (lines 1007-1048): missing certificate is
`BadSecurityChecksFailed`; a current time before `notBefore` or at/after
`notAfter` is `BadCertificateTimeInvalid`; otherwise `Good` (revocation,
issuer, URI checks are stubs).  Certificate parsing is the external
`exploreCertificate`, passed as a function. -/
def check_certificate_validity (explore : Bytes → ExploredCertificate) (now : Int)
    (certificate : Option Bytes) : StatusCode :=
  match certificate with
  | none => StatusCode.BadSecurityChecksFailed
  | some c =>
      let cert := explore c
      if cert.notBefore > now then StatusCode.BadCertificateTimeInvalid
      else if cert.notAfter ≤ now then StatusCode.BadCertificateTimeInvalid
      else StatusCode.Good

/-! ## The OPN handler

`_handle_OpenSecureChannelRequest` (lines 810-914), as a function of the
channel fields it reads, the external collaborators, and the decoded
request.  Its observable effects are collected in `OpnHandlerResult`. -/

/-- The outcome of `_handle_OpenSecureChannelRequest`: the response's final
`serviceResult`, whether the response was replaced by a `ServiceFault`
(line 903), the server nonce, the nonce pair handed to
`compute_derived_keys` (line 850), the cached `clientCertificate`
(line 883), the token-manager state, and whether the send-completion
callback closes the channel (lines 908-911). -/
structure OpnHandlerResult where
  serviceResult : StatusCode
  isServiceFault : Bool
  serverNonce : Option Bytes
  derivedKeys : Option (Bytes × Bytes)
  clientCertificate : Option Bytes
  tokens : TokenState
  revisedLifeTime : Nat
  responseRequestHandle : Nat
  closeAfterSend : Bool
  deriving DecidableEq

/-- Lines 826-851 of `_handle_OpenSecureChannelRequest`: `serviceResult`
starts `Good`; with a non-null crypto factory, draw a server nonce of the
policy's symmetric key length, set `BadSecurityModeRejected` on a nonce
length mismatch, and then call `compute_derived_keys` on the
`(serverNonce, clientNonce)` pair unconditionally (line 850).  Returns
`(serviceResult, serverNonce, derivation input pair)`. -/
def opn_crypto_step (cryptoFactory : Option CryptoFactory) (randomBytes : Nat → Bytes)
    (clientNonce : Bytes) : StatusCode × Option Bytes × Option (Bytes × Bytes) :=
  match cryptoFactory with
  | none => (StatusCode.Good, none, none)
  | some cf =>
      let serverNonce := randomBytes cf.symmetricKeyLength
      let sr := if clientNonce.length ≠ serverNonce.length
        then StatusCode.BadSecurityModeRejected else StatusCode.Good
      (sr, some serverNonce, some (serverNonce, clientNonce))

/-- Line 883: `self.clientCertificate = message.securityHeader ?
message.securityHeader.senderCertificate : null` — the cached certificate
is the raw `senderCertificate`, with no zero-length normalisation. -/
def cachedClientCertificate
    (messageSecurityHeader : Option AsymmetricAlgorithmSecurityHeader) : Option Bytes :=
  match messageSecurityHeader with
  | some h => h.senderCertificate
  | none => none

/-- Lines 887-893: when the mode is not None and the thumbprint check
fails, overwrite the response's `serviceResult` with
`BadCertificateInvalid`. -/
def opn_thumbprint_step (securityMode : MessageSecurityMode)
    (serverCertificateChain : List Bytes)
    (clientSecurityHeader : AsymmetricAlgorithmSecurityHeader)
    (serviceResult : StatusCode) : StatusCode :=
  if securityMode ≠ MessageSecurityMode.NONE ∧
      check_receiverCertificateThumbprint serverCertificateChain clientSecurityHeader = false
  then StatusCode.BadCertificateInvalid else serviceResult

/-- Lines 895-905: when a client certificate is cached and its validity
check is non-Good, the whole response is replaced by a `ServiceFault`
carrying that status.  Returns the final `serviceResult` and whether the
response became a `ServiceFault`. -/
def opn_certificate_step (explore : Bytes → ExploredCertificate) (nowMs : Int)
    (clientCertificate : Option Bytes) (serviceResult : StatusCode) : StatusCode × Bool :=
  match clientCertificate with
  | some _ =>
      let certificateStatus := check_certificate_validity explore nowMs clientCertificate
      if certificateStatus ≠ StatusCode.Good then (certificateStatus, true)
      else (serviceResult, false)
  | none => (serviceResult, false)

/-- `_handle_OpenSecureChannelRequest` (lines 810-914).
`clientSecurityHeader` is the asymmetric header stored from the initial OPN
(line 723), used by the thumbprint check (line 888);
`messageSecurityHeader` is `message.securityHeader`, present on the initial
OPN and absent on renewals routed through `_on_common_message`, used to
cache `clientCertificate` (line 883).  `randomBytes` is Node's
`crypto.randomBytes`; `explore` is `crypto_utils.exploreCertificate`;
`now` stamps the token, `nowMs` is the clock read by the validity check.
The send-completion callback (lines 908-911) closes the channel exactly
when the response's final `serviceResult` is not `Good`. -/
def handle_OpenSecureChannelRequest
    (securityMode : MessageSecurityMode)
    (serverCertificateChain : List Bytes)
    (defaultSecureTokenLifetime : Nat)
    (secureChannelId : Nat)
    (now : Nat)
    (nowMs : Int)
    (explore : Bytes → ExploredCertificate)
    (cryptoFactory : Option CryptoFactory)
    (randomBytes : Nat → Bytes)
    (clientSecurityHeader : AsymmetricAlgorithmSecurityHeader)
    (messageSecurityHeader : Option AsymmetricAlgorithmSecurityHeader)
    (request : OpenSecureChannelRequest)
    (tokens : TokenState) : OpnHandlerResult :=
  -- lines 819-823: store the client nonce, revise the lifetime, renew the token
  let revisedLifeTime := set_lifetime defaultSecureTokenLifetime request.requestedLifetime
  let tokens1 := prepare_security_token request.requestType secureChannelId revisedLifeTime now tokens
  let cryptoOut := opn_crypto_step cryptoFactory randomBytes request.clientNonce
  let clientCertificate := cachedClientCertificate messageSecurityHeader
  let serviceResult1 :=
    opn_thumbprint_step securityMode serverCertificateChain clientSecurityHeader cryptoOut.1
  let faultOut := opn_certificate_step explore nowMs clientCertificate serviceResult1
  { serviceResult := faultOut.1,
    isServiceFault := faultOut.2,
    serverNonce := cryptoOut.2.1,
    derivedKeys := cryptoOut.2.2,
    clientCertificate := clientCertificate,
    tokens := tokens1,
    revisedLifeTime := revisedLifeTime,
    responseRequestHandle := request.requestHandle,
    closeAfterSend := decide (faultOut.1 ≠ StatusCode.Good) }

/-! ## Send path and channel session -/

/-- A request header: the layer only reads `requestHandle`. -/
structure RequestHeader where
  requestHandle : Nat
  deriving DecidableEq

/-- A response header: `requestHandle` (overwritten by `send_response`) and
`serviceResult`. -/
structure ResponseHeader where
  requestHandle : Nat
  serviceResult : StatusCode
  deriving DecidableEq

/-- The chunking options assembled by `send_response` (lines 409-416). -/
structure OutboundChunkOptions where
  requestId : Nat
  secureChannelId : Nat
  tokenId : Nat
  deriving DecidableEq

/-- `send_response` (lines 383-446), restricted to its observable data flow:
it builds the chunking options from the current security token and copies
`request.requestHeader.requestHandle` into
`response.responseHeader.requestHandle` (line 423) before chunking. -/
def send_response_model (securityToken : ChannelSecurityToken) (requestId : Nat)
    (requestHeader : RequestHeader) (responseHeader : ResponseHeader) :
    OutboundChunkOptions × ResponseHeader :=
  ({ requestId := requestId,
     secureChannelId := securityToken.secureChannelId,
     tokenId := securityToken.tokenId },
   { responseHeader with requestHandle := requestHeader.requestHandle })

/-- The observable outcome of `send_error_and_abort` (lines 458-474). -/
structure AbortSendResult where
  serviceResult : StatusCode
  responseRequestHandle : Nat
  closesChannel : Bool
  deriving DecidableEq

/-- `send_error_and_abort` (lines 458-474): build a `ServiceFault` whose
`serviceResult` is the given status code, send it through `send_response`
(which copies the request handle), and close the channel from the
send-completion callback, unconditionally. -/
def send_error_and_abort (statusCode : StatusCode) (requestHeader : RequestHeader) :
    AbortSendResult :=
  { serviceResult := statusCode,
    responseRequestHandle := requestHeader.requestHandle,
    closesChannel := true }

/-- The `isOpened` getter (lines 189-192): it returns
`self.clientCertificate`, so it is truthy exactly when the cached client
certificate is a non-null buffer (a zero-length buffer is an object, hence
truthy in JavaScript). -/
def isOpened (clientCertificate : Option Bytes) : Bool :=
  clientCertificate.isSome

/-! ## Repeated token issuance (for the tokenId invariant)

A channel issues tokens through `_prepare_security_token` on every OPN;
`issuedTokenState k` is the token-manager state after `k` such calls from a
freshly constructed channel, for arbitrary per-call request types,
lifetimes and clock readings. -/

/-- Token-manager state after `k` issue/renew operations from construction. -/
def issuedTokenState (secureChannelId : Nat) (reqTypes : Nat → SecurityTokenRequestType)
    (lifetimes times : Nat → Nat) : Nat → TokenState
  | 0 => initialTokenState
  | k + 1 =>
      prepare_security_token (reqTypes k) secureChannelId (lifetimes k) (times k)
        (issuedTokenState secureChannelId reqTypes lifetimes times k)

/-- The tokenId produced by the `(k+1)`-th issue/renew operation. -/
def nthIssuedTokenId (secureChannelId : Nat) (reqTypes : Nat → SecurityTokenRequestType)
    (lifetimes times : Nat → Nat) (k : Nat) : Option Nat :=
  (issuedTokenState secureChannelId reqTypes lifetimes times (k + 1)).securityToken.map
    ChannelSecurityToken.tokenId

/-! ## Concrete instances used by counterexamples and witnesses -/

/-- A security header with no certificate and no thumbprint. -/
def headerNoThumb : AsymmetricAlgorithmSecurityHeader :=
  { securityPolicyUri := "http://opcfoundation.org/UA/SecurityPolicy#Basic128Rsa15",
    senderCertificate := none, receiverCertificateThumbprint := none }

/-- A deterministic stand-in for `crypto.randomBytes`. -/
def zeroRandomBytes (n : Nat) : Bytes := List.replicate n 0

/-- A certificate parser reporting a validity window around time 0. -/
def wideExplore : Bytes → ExploredCertificate :=
  fun _ => { notBefore := -1, notAfter := 1 }

/-- Concrete OPN request with a 2-byte client nonce (shorter than the
16-byte server nonce of Basic128Rsa15). -/
def shortNonceRequest : OpenSecureChannelRequest :=
  { clientNonce := [1, 2], requestedLifetime := 0,
    requestType := SecurityTokenRequestType.ISSUE, requestHandle := 7 }

/-- The handler outcome on `shortNonceRequest` under mode Sign with a
16-byte-key crypto factory. -/
def shortNonceResult : OpnHandlerResult :=
  handle_OpenSecureChannelRequest MessageSecurityMode.SIGN [[1]] 600000 1 0 0
    wideExplore (some { symmetricKeyLength := 16 }) zeroRandomBytes
    headerNoThumb (some headerNoThumb) shortNonceRequest initialTokenState

/-- A two-certificate server chain (DER blobs modelled as `[1]` and `[2]`). -/
def twoCertChain : List Bytes := [[1], [2]]

/-- A client header whose thumbprint is the SHA-1 of the server
certificate, i.e. of the first certificate of `twoCertChain`. -/
def leafThumbHeader : AsymmetricAlgorithmSecurityHeader :=
  { securityPolicyUri := "http://opcfoundation.org/UA/SecurityPolicy#Basic256",
    senderCertificate := none,
    receiverCertificateThumbprint := some (makeSHA1Thumbprint [1]) }

/-- An OPN request whose client nonce matches the 16-byte server nonce. -/
def matchedNonceRequest : OpenSecureChannelRequest :=
  { clientNonce := zeroRandomBytes 16, requestedLifetime := 0,
    requestType := SecurityTokenRequestType.ISSUE, requestHandle := 2 }

/-- A pre-renewal token-manager state holding the token with id 1. -/
def preRenewalState : TokenState :=
  { lastTokenId := 1,
    securityToken := some
      { secureChannelId := 5, tokenId := 1, createdAt := 0,
        revisedLifeTime := 600000, expired := false },
    securityTokenTimeout := true }

/-- The token-manager state right after a RENEW on `preRenewalState`. -/
def postRenewalState : TokenState :=
  prepare_security_token SecurityTokenRequestType.RENEW 5 600000 1000 preRenewalState

/-- A minimal mode-None OPN request. -/
def noneModeRequest : OpenSecureChannelRequest :=
  { clientNonce := [], requestedLifetime := 0,
    requestType := SecurityTokenRequestType.ISSUE, requestHandle := 9 }

/-- A certificate parser reporting an already-elapsed validity window for
every blob, as a stand-in for a DER parser confronted with a certificate
that carries no (parsable) validity window. -/
def rejectingExplore : Bytes → ExploredCertificate :=
  fun _ => { notBefore := 0, notAfter := 0 }

/-! ## Theorems -/

/-- The SHA-1 implementation agrees with the FIPS 180-4 test vector for
the message "abc". -/
theorem sha1_matches_fips_test_vector :
    bufToHex (sha1 [0x61, 0x62, 0x63]) =
      "a9993e364706816aba3e25717850c26c9cd0d89d".toList := by decide

/-- C1, counterexample: at a concrete OPN with a 16-byte-key crypto
factory and a 2-byte client nonce, the handler sets `serviceResult` to
`BadSecurityModeRejected` yet still hands the mismatched nonce pair to
`compute_derived_keys` (line 850 runs unconditionally); this refutes "the
symmetric key derivation step is skipped". -/
theorem C1_counterexample :
    shortNonceResult.serviceResult = StatusCode.BadSecurityModeRejected ∧
    shortNonceResult.derivedKeys = some (zeroRandomBytes 16, [1, 2]) := by decide

/-- C1, amended: with a non-null crypto factory, a client/server nonce
length mismatch makes the OPN response's `serviceResult`
`BadSecurityModeRejected` (final, provided the thumbprint check passes and
any cached client certificate passes the validity check), but the
symmetric key derivation is nevertheless still performed on the mismatched
nonce pair. -/
theorem C1_nonce_mismatch_rejects_but_still_derives
    (securityMode : MessageSecurityMode) (chain : List Bytes)
    (dflt scid now : Nat) (nowMs : Int) (explore : Bytes → ExploredCertificate)
    (cf : CryptoFactory) (randomBytes : Nat → Bytes)
    (csh : AsymmetricAlgorithmSecurityHeader)
    (msh : Option AsymmetricAlgorithmSecurityHeader)
    (request : OpenSecureChannelRequest) (tokens : TokenState)
    (hmismatch : request.clientNonce.length ≠ (randomBytes cf.symmetricKeyLength).length)
    (hthumb : check_receiverCertificateThumbprint chain csh = true)
    (hcert : ∀ c, cachedClientCertificate msh = some c →
      check_certificate_validity explore nowMs (some c) = StatusCode.Good) :
    (handle_OpenSecureChannelRequest securityMode chain dflt scid now nowMs explore
        (some cf) randomBytes csh msh request tokens).serviceResult =
      StatusCode.BadSecurityModeRejected ∧
    (handle_OpenSecureChannelRequest securityMode chain dflt scid now nowMs explore
        (some cf) randomBytes csh msh request tokens).derivedKeys =
      some (randomBytes cf.symmetricKeyLength, request.clientNonce) := by
  have h0 : opn_crypto_step (some cf) randomBytes request.clientNonce =
      (StatusCode.BadSecurityModeRejected, some (randomBytes cf.symmetricKeyLength),
        some (randomBytes cf.symmetricKeyLength, request.clientNonce)) := by
    simp [opn_crypto_step, hmismatch]
  have h1 : opn_thumbprint_step securityMode chain csh StatusCode.BadSecurityModeRejected =
      StatusCode.BadSecurityModeRejected := by
    simp [opn_thumbprint_step, hthumb]
  constructor
  · show (opn_certificate_step explore nowMs (cachedClientCertificate msh)
        (opn_thumbprint_step securityMode chain csh
          (opn_crypto_step (some cf) randomBytes request.clientNonce).1)).1 =
      StatusCode.BadSecurityModeRejected
    rw [h0]
    cases hcc : cachedClientCertificate msh with
    | none => simpa [opn_certificate_step] using h1
    | some c =>
        have hv := hcert c hcc
        simpa [opn_certificate_step, hv] using h1
  · show (opn_crypto_step (some cf) randomBytes request.clientNonce).2.2 =
      some (randomBytes cf.symmetricKeyLength, request.clientNonce)
    rw [h0]

/-- C1, witness: the amended theorem applied to the concrete short-nonce
instance. -/
theorem C1_witness :
    shortNonceRequest.clientNonce.length ≠ (zeroRandomBytes 16).length ∧
    shortNonceResult.serviceResult = StatusCode.BadSecurityModeRejected ∧
    shortNonceResult.derivedKeys = some (zeroRandomBytes 16, shortNonceRequest.clientNonce) := by
  refine ⟨by decide, ?_⟩
  exact C1_nonce_mismatch_rejects_but_still_derives MessageSecurityMode.SIGN [[1]] 600000 1 0 0
    wideExplore { symmetricKeyLength := 16 } zeroRandomBytes headerNoThumb (some headerNoThumb)
    shortNonceRequest initialTokenState (by decide) (by decide)
    (fun c hc => by simp [cachedClientCertificate, headerNoThumb] at hc)

/-- C2: with a two-certificate server chain, a client thumbprint equal to
the SHA-1 of the server certificate (the first certificate of the chain)
is rejected: line 980 digests the whole chain blob, not the certificate
extracted into the unused local of line 979.  The source check returns
false where the spec's comparison succeeds, and the handler degrades the
still-sent OPN response (not a ServiceFault) to `BadCertificateInvalid`. -/
theorem C2_thumbprint_digests_chain_not_certificate :
    check_receiverCertificateThumbprint twoCertChain leafThumbHeader = false ∧
    spec_check_receiverCertificateThumbprint MessageSecurityMode.SIGNANDENCRYPT
      twoCertChain leafThumbHeader = true ∧
    (handle_OpenSecureChannelRequest MessageSecurityMode.SIGNANDENCRYPT twoCertChain 600000 1 0 0
        wideExplore (some { symmetricKeyLength := 16 }) zeroRandomBytes leafThumbHeader
        (some leafThumbHeader) matchedNonceRequest initialTokenState).serviceResult =
      StatusCode.BadCertificateInvalid ∧
    (handle_OpenSecureChannelRequest MessageSecurityMode.SIGNANDENCRYPT twoCertChain 600000 1 0 0
        wideExplore (some { symmetricKeyLength := 16 }) zeroRandomBytes leafThumbHeader
        (some leafThumbHeader) matchedNonceRequest initialTokenState).isServiceFault = false := by
  decide

/-- C3: a null `receiverCertificateThumbprint` passes
`_check_receiverCertificateThumbprint` (lines 976, 985 return true) even
under mode Sign, so the OPN completes with `serviceResult = Good`, while
the claim — and the source's own comment at lines 885-886 — require the
verification to fail with `BadCertificateInvalid` when the mode is not
None.  (The mode-None half of the claim does hold: the check also
accepts.) -/
theorem C3_null_thumbprint_accepted_under_sign :
    check_receiverCertificateThumbprint [[1]] headerNoThumb = true ∧
    spec_check_receiverCertificateThumbprint MessageSecurityMode.SIGN [[1]] headerNoThumb = false ∧
    spec_check_receiverCertificateThumbprint MessageSecurityMode.NONE [[1]] headerNoThumb = true ∧
    (handle_OpenSecureChannelRequest MessageSecurityMode.SIGN [[1]] 600000 1 0 0 wideExplore
        (some { symmetricKeyLength := 16 }) zeroRandomBytes headerNoThumb (some headerNoThumb)
        matchedNonceRequest initialTokenState).serviceResult = StatusCode.Good := by
  decide

/-- C4: immediately after a RENEW, the channel's token bookkeeping
recognises only the freshly issued token: `_prepare_security_token`
deletes the previous token (line 623) and `_add_new_security_token`
replaces it (line 274), so the previous token is dropped at once rather
than retained until expiry or first use of the new token, contrary to the
source's own comment at lines 257-258. -/
theorem C4_previous_token_dropped :
    recognizesTokenId preRenewalState 1 = true ∧
    postRenewalState.securityToken.map ChannelSecurityToken.tokenId = some 2 ∧
    recognizesTokenId postRenewalState 1 = false ∧
    recognizesTokenId postRenewalState 2 = true := by decide

/-- C5, counterexample: firing the watchdog on a concrete armed state only
clears the timer handle; the token itself is untouched and its expired
flag stays false, refuting "once it fires an internal expired flag is set
so that subsequent requests secured with that token are rejected". -/
theorem C5_counterexample :
    security_token_watch_dog_fire preRenewalState =
      { lastTokenId := 1,
        securityToken := some
          { secureChannelId := 5, tokenId := 1, createdAt := 0,
            revisedLifeTime := 600000, expired := false },
        securityTokenTimeout := false } ∧
    (security_token_watch_dog_fire preRenewalState).securityToken.map
      ChannelSecurityToken.expired = some false := by decide

/-- C5, amended: the watchdog armed at token installation fires exactly
`revisedLifeTime * 1.20` milliseconds after creation; its firing only
clears the timer handle — it sets no expired flag, changes no other
channel state, and by itself rejects nothing and closes nothing. -/
theorem C5_watchdog_delay_and_fire_effect :
    (∀ token : ChannelSecurityToken,
      security_token_watch_dog_delay token = 6 / 5 * (token.revisedLifeTime : Rat)) ∧
    (∀ scid lt now : Nat, ∀ s : TokenState,
      (add_new_security_token scid lt now s).securityTokenTimeout = true) ∧
    (∀ s : TokenState,
      security_token_watch_dog_fire s = { s with securityTokenTimeout := false }) := by
  refine ⟨fun token => ?_, fun scid lt now s => rfl, fun s => rfl⟩
  unfold security_token_watch_dog_delay
  ring

/-- C6: `revisedLifeTime` is the server default when the request asks for
0, and `min(default, requested)` otherwise; with the constructor's
defaulting of `defaultSecureTokenLifetime` (600000 when the option is
missing or falsy) it always lies in `(0, defaultSecureTokenLifetime]`. -/
theorem C6_revised_lifetime_bounds (opt : Option Nat) (requested : Nat) :
    (requested = 0 →
      set_lifetime (mkDefaultSecureTokenLifetime opt) requested =
        mkDefaultSecureTokenLifetime opt) ∧
    (requested ≠ 0 →
      set_lifetime (mkDefaultSecureTokenLifetime opt) requested =
        min (mkDefaultSecureTokenLifetime opt) requested) ∧
    0 < set_lifetime (mkDefaultSecureTokenLifetime opt) requested ∧
    set_lifetime (mkDefaultSecureTokenLifetime opt) requested ≤
      mkDefaultSecureTokenLifetime opt ∧
    mkDefaultSecureTokenLifetime none = 600000 := by
  have hd : 0 < mkDefaultSecureTokenLifetime opt := by
    match opt with
    | none => decide
    | some 0 => decide
    | some (n + 1) => exact Nat.succ_pos n
  refine ⟨fun h => by simp [set_lifetime, h], fun h => by simp [set_lifetime, h], ?_, ?_, rfl⟩
  · by_cases h : requested = 0
    · simpa [set_lifetime, h] using hd
    · have hr : 0 < requested := Nat.pos_of_ne_zero h
      simp only [set_lifetime, h, if_false, Nat.lt_min]
      exact ⟨hd, hr⟩
  · by_cases h : requested = 0
    · simp [set_lifetime, h]
    · simp only [set_lifetime, h, if_false]
      exact Nat.min_le_left _ _

/-- C6, witness: the bounds at the default option and a zero requested
lifetime. -/
theorem C6_witness :
    set_lifetime (mkDefaultSecureTokenLifetime none) 0 = mkDefaultSecureTokenLifetime none ∧
    0 < set_lifetime (mkDefaultSecureTokenLifetime none) 0 ∧
    mkDefaultSecureTokenLifetime none = 600000 :=
  ⟨(C6_revised_lifetime_bounds none 0).1 rfl,
   (C6_revised_lifetime_bounds none 0).2.2.1,
   (C6_revised_lifetime_bounds none 0).2.2.2.2⟩

/-- C7: whenever the handshake's final `serviceResult` is not `Good`
(whether as a degraded OPN response or as a ServiceFault), the
send-completion callback of the OPN handler closes the channel
(lines 908-911), and the `send_error_and_abort` path closes the channel
unconditionally after its ServiceFault flushes (lines 471-473). -/
theorem C7_non_good_service_result_closes_channel
    (securityMode : MessageSecurityMode) (chain : List Bytes)
    (dflt scid now : Nat) (nowMs : Int) (explore : Bytes → ExploredCertificate)
    (cryptoFactory : Option CryptoFactory) (randomBytes : Nat → Bytes)
    (csh : AsymmetricAlgorithmSecurityHeader)
    (msh : Option AsymmetricAlgorithmSecurityHeader)
    (request : OpenSecureChannelRequest) (tokens : TokenState)
    (h : (handle_OpenSecureChannelRequest securityMode chain dflt scid now nowMs explore
        cryptoFactory randomBytes csh msh request tokens).serviceResult ≠ StatusCode.Good) :
    (handle_OpenSecureChannelRequest securityMode chain dflt scid now nowMs explore
        cryptoFactory randomBytes csh msh request tokens).closeAfterSend = true ∧
    ∀ (sc : StatusCode) (rq : RequestHeader),
      (send_error_and_abort sc rq).closesChannel = true :=
  ⟨decide_eq_true h, fun _ _ => rfl⟩

/-- C7, witness: the close decision at the concrete nonce-mismatch
instance, whose final serviceResult is `BadSecurityModeRejected`. -/
theorem C7_witness :
    shortNonceResult.serviceResult ≠ StatusCode.Good ∧
    shortNonceResult.closeAfterSend = true := by
  refine ⟨by decide, ?_⟩
  exact (C7_non_good_service_result_closes_channel MessageSecurityMode.SIGN [[1]] 600000 1 0 0
    wideExplore (some { symmetricKeyLength := 16 }) zeroRandomBytes headerNoThumb
    (some headerNoThumb) shortNonceRequest initialTokenState (by decide)).1

/-- Each issue/renew operation increments `lastTokenId` by one. -/
theorem prepare_security_token_lastTokenId (rt : SecurityTokenRequestType)
    (scid lt now : Nat) (s : TokenState) :
    (prepare_security_token rt scid lt now s).lastTokenId = s.lastTokenId + 1 := by
  cases rt <;> rfl

/-- Each issue/renew operation installs the token whose id is the
incremented `lastTokenId`. -/
theorem prepare_security_token_tokenId (rt : SecurityTokenRequestType)
    (scid lt now : Nat) (s : TokenState) :
    (prepare_security_token rt scid lt now s).securityToken.map
      ChannelSecurityToken.tokenId = some (s.lastTokenId + 1) := by
  cases rt <;> rfl

/-- After `k` issue/renew operations from construction, `lastTokenId = k`. -/
theorem issuedTokenState_lastTokenId (scid : Nat) (rt : Nat → SecurityTokenRequestType)
    (lts ts : Nat → Nat) (k : Nat) :
    (issuedTokenState scid rt lts ts k).lastTokenId = k := by
  induction k with
  | zero => rfl
  | succ k ih =>
      have hstep : issuedTokenState scid rt lts ts (k + 1) =
          prepare_security_token (rt k) scid (lts k) (ts k)
            (issuedTokenState scid rt lts ts k) := rfl
      rw [hstep, prepare_security_token_lastTokenId, ih]

/-- The `(k+1)`-th issued token has tokenId `k + 1`. -/
theorem nthIssuedTokenId_eq (scid : Nat) (rt : Nat → SecurityTokenRequestType)
    (lts ts : Nat → Nat) (k : Nat) :
    nthIssuedTokenId scid rt lts ts k = some (k + 1) := by
  unfold nthIssuedTokenId
  have hstep : issuedTokenState scid rt lts ts (k + 1) =
      prepare_security_token (rt k) scid (lts k) (ts k)
        (issuedTokenState scid rt lts ts k) := rfl
  rw [hstep, prepare_security_token_tokenId, issuedTokenState_lastTokenId]

/-- C8: on a single channel, the first issued token has tokenId 1 and the
tokenIds of successive issue/renew operations strictly increase, for every
sequence of request types, requested lifetimes and clock readings. -/
theorem C8_tokenId_strictly_increasing (scid : Nat)
    (rt : Nat → SecurityTokenRequestType) (lts ts : Nat → Nat) :
    nthIssuedTokenId scid rt lts ts 0 = some 1 ∧
    ∀ i j : Nat, i < j →
      (nthIssuedTokenId scid rt lts ts i).getD 0 <
        (nthIssuedTokenId scid rt lts ts j).getD 0 := by
  refine ⟨nthIssuedTokenId_eq scid rt lts ts 0, fun i j hij => ?_⟩
  rw [nthIssuedTokenId_eq, nthIssuedTokenId_eq]
  simpa using Nat.succ_lt_succ hij

/-- C8, witness: the first two issued tokens of a concrete channel carry
ids 1 and 2. -/
theorem C8_witness :
    nthIssuedTokenId 1 (fun _ => SecurityTokenRequestType.ISSUE)
      (fun _ => 600000) (fun _ => 0) 0 = some 1 ∧
    (nthIssuedTokenId 1 (fun _ => SecurityTokenRequestType.ISSUE)
        (fun _ => 600000) (fun _ => 0) 0).getD 0 <
      (nthIssuedTokenId 1 (fun _ => SecurityTokenRequestType.ISSUE)
        (fun _ => 600000) (fun _ => 0) 1).getD 0 :=
  ⟨(C8_tokenId_strictly_increasing 1 _ _ _).1,
   (C8_tokenId_strictly_increasing 1 _ _ _).2 0 1 (by decide)⟩

/-- C9: `send_response` copies the request's `requestHandle` into the
response header (line 423) before chunking, for every message type; the
`send_error_and_abort` path, which routes its ServiceFault through
`send_response`, preserves it as well, and so does the OPN handler. -/
theorem C9_response_requestHandle_matches_request (tok : ChannelSecurityToken)
    (rid : Nat) (rqh : RequestHeader) (rsph : ResponseHeader) :
    ((send_response_model tok rid rqh rsph).2).requestHandle = rqh.requestHandle ∧
    (∀ sc : StatusCode,
      (send_error_and_abort sc rqh).responseRequestHandle = rqh.requestHandle) ∧
    ∀ (securityMode : MessageSecurityMode) (chain : List Bytes)
      (dflt scid now : Nat) (nowMs : Int) (explore : Bytes → ExploredCertificate)
      (cryptoFactory : Option CryptoFactory) (randomBytes : Nat → Bytes)
      (csh : AsymmetricAlgorithmSecurityHeader)
      (msh : Option AsymmetricAlgorithmSecurityHeader)
      (request : OpenSecureChannelRequest) (tokens : TokenState),
      (handle_OpenSecureChannelRequest securityMode chain dflt scid now nowMs explore
          cryptoFactory randomBytes csh msh request tokens).responseRequestHandle =
        request.requestHandle :=
  ⟨rfl, fun _ => rfl, fun _ _ _ _ _ _ _ _ _ _ _ _ _ => rfl⟩

/-- C10: `isOpened` returns the cached `clientCertificate` (line 191), so
it is truthy exactly when a non-null certificate is cached; and a channel
whose OPN under mode None completed with `serviceResult = Good` keeps
`isOpened` falsy whenever its `senderCertificate` was null or a
zero-length buffer.  A null certificate is cached as null (line 883); a
zero-length one is cached as-is and, being truthy, reaches the validity
check (lines 895, 1020), whose external DER parser cannot report a
currently-valid window for an empty blob — hypothesis `hparser` — so the
OPN never completes `Good` in that case. -/
theorem C10_isOpened_falsy_for_successful_none_open
    (chain : List Bytes) (dflt scid now : Nat) (nowMs : Int)
    (explore : Bytes → ExploredCertificate)
    (cryptoFactory : Option CryptoFactory) (randomBytes : Nat → Bytes)
    (csh h : AsymmetricAlgorithmSecurityHeader)
    (request : OpenSecureChannelRequest) (tokens : TokenState)
    (hparser : check_certificate_validity explore nowMs (some []) ≠ StatusCode.Good)
    (hsc : h.senderCertificate = none ∨ h.senderCertificate = some [])
    (hopen : (handle_OpenSecureChannelRequest MessageSecurityMode.NONE chain dflt scid now
        nowMs explore cryptoFactory randomBytes csh (some h) request
        tokens).serviceResult = StatusCode.Good) :
    (∀ cc : Option Bytes, isOpened cc = true ↔ cc ≠ none) ∧
    isOpened (handle_OpenSecureChannelRequest MessageSecurityMode.NONE chain dflt scid now
        nowMs explore cryptoFactory randomBytes csh (some h) request
        tokens).clientCertificate = false := by
  constructor
  · intro cc
    cases cc <;> simp [isOpened]
  · rcases hsc with hn | he
    · show isOpened (cachedClientCertificate (some h)) = false
      simp [cachedClientCertificate, hn, isOpened]
    · exfalso
      have hcc : cachedClientCertificate (some h) = some [] := by
        simp [cachedClientCertificate, he]
      have hsr : (handle_OpenSecureChannelRequest MessageSecurityMode.NONE chain dflt scid now
          nowMs explore cryptoFactory randomBytes csh (some h) request tokens).serviceResult =
          (opn_certificate_step explore nowMs (cachedClientCertificate (some h))
            (opn_thumbprint_step MessageSecurityMode.NONE chain csh
              (opn_crypto_step cryptoFactory randomBytes request.clientNonce).1)).1 := rfl
      rw [hsr, hcc] at hopen
      by_cases hv : check_certificate_validity explore nowMs (some []) = StatusCode.Good
      · exact hparser hv
      · simp [opn_certificate_step, hv] at hopen

/-- C10, witness: the theorem at a concrete mode-None open with a null
sender certificate and a parser that rejects the empty certificate. -/
theorem C10_witness :
    check_certificate_validity rejectingExplore 0 (some []) ≠ StatusCode.Good ∧
    headerNoThumb.senderCertificate = none ∧
    (handle_OpenSecureChannelRequest MessageSecurityMode.NONE [] 600000 1 0 0
        rejectingExplore none zeroRandomBytes headerNoThumb (some headerNoThumb)
        noneModeRequest initialTokenState).serviceResult = StatusCode.Good ∧
    isOpened (handle_OpenSecureChannelRequest MessageSecurityMode.NONE [] 600000 1 0 0
        rejectingExplore none zeroRandomBytes headerNoThumb (some headerNoThumb)
        noneModeRequest initialTokenState).clientCertificate = false := by
  refine ⟨by decide, rfl, by decide, ?_⟩
  exact (C10_isOpened_falsy_for_successful_none_open [] 600000 1 0 0 rejectingExplore none
    zeroRandomBytes headerNoThumb headerNoThumb noneModeRequest initialTokenState
    (by decide) (Or.inl rfl) (by decide)).2
